import Mathlib

/-!
Shallow embedding of the KPI manager application (`app.py`) and proofs about
its core algorithms: the threshold classifier, the KPI result upsert batch,
period closing, the subordinate lookup, the employee import and the org-chart
tree builder.

Numeric values (KPI results and threshold bounds) are modelled as rationals;
the source compares Python numbers only with `<=`, so any linearly ordered
field with decidable order is a faithful carrier.  Python `float(...)`
parsing, which the source wraps in `try/except ValueError`, is abstracted as
a parameter of type `String → Option ℚ` (`none` models the `ValueError`
branch).  Database ids are natural numbers; the reporting period (always the
first day of a month, `current_period`) is an opaque natural number key.
-/

/-- Status colours produced by the classifier in `mis_kpis`
(strings "success" / "warning" / "danger" in the source). -/
inductive Color
  | success
  | warning
  | danger
deriving Repr, DecidableEq

/-- A KPI definition row from the `kpis` table: the columns read by
`mis_kpis` (description, the three optional min/max ranges and the
`es_criterio` flag). -/
structure Kpi where
  id : Nat
  descripcion : String
  esCriterio : Bool
  rojoMin : Option ℚ
  rojoMax : Option ℚ
  amarilloMin : Option ℚ
  amarilloMax : Option ℚ
  verdeMin : Option ℚ
  verdeMax : Option ℚ
deriving Repr, DecidableEq

/-- One guard of the classification chain in `mis_kpis` (lines 334-351):
`row["rango_X_min"] is not None and row["rango_X_max"] is not None and
row["rango_X_min"] <= val <= row["rango_X_max"]`. -/
def inRange (lo hi : Option ℚ) (v : ℚ) : Bool :=
  match lo, hi with
  | some a, some b => decide (a ≤ v) && decide (v ≤ b)
  | _, _ => false

/-- The colour computation of `mis_kpis` (lines 327-352 and the identical
copy at lines 385-407): `color = None`; only when the KPI is not a criterio
and the value is not `None` is the verde / amarillo / rojo chain tested. -/
def rowColor (k : Kpi) (valor : Option ℚ) : Option Color :=
  match valor with
  | none => none
  | some val =>
    if k.esCriterio then none
    else if inRange k.verdeMin k.verdeMax val then some Color.success
    else if inRange k.amarilloMin k.amarilloMax val then some Color.warning
    else if inRange k.rojoMin k.rojoMax val then some Color.danger
    else none

/-- Spec-side predicate, from the spec's words: a range matches when both its
bounds are present and `min <= value <= max` (inclusive on both ends). -/
def specMatches (lo hi : Option ℚ) (v : ℚ) : Bool :=
  match lo, hi with
  | some a, some b => decide (a ≤ v ∧ v ≤ b)
  | _, _ => false

/-- Spec-side range list in the fixed priority order green → yellow → red. -/
def rangeStatusList (k : Kpi) : List ((Option ℚ × Option ℚ) × Color) :=
  [((k.verdeMin, k.verdeMax), Color.success),
   ((k.amarilloMin, k.amarilloMax), Color.warning),
   ((k.rojoMin, k.rojoMax), Color.danger)]

/-- Spec-side classifier, from the spec's words: the status of the first
range in green → yellow → red order that matches, `none` if none matches. -/
def specFirstMatch (k : Kpi) (v : ℚ) : Option Color :=
  ((rangeStatusList k).find? (fun rc => specMatches rc.1.1 rc.1.2 v)).map (fun rc => rc.2)

/-- A row of the `kpi_resultados` table: the columns touched by the POST
branch of `mis_kpis` and by `cerrar_periodo`. -/
structure ResultRow where
  id : Nat
  empleadoId : Nat
  kpiId : Nat
  periodo : Nat
  valor : Option ℚ
  texto : Option String
  cerrado : Bool
  cerradoPor : Option Nat
deriving Repr, DecidableEq

/-- The `kpi_resultados` table together with its auto-increment counter
(`cur.lastrowid` semantics: a fresh insert receives `nextId`). -/
structure ResultStore where
  nextId : Nat
  rows : List ResultRow
deriving Repr, DecidableEq

/-- One (kpi_id, valor, texto_resultado) triple of the submitted form, as
zipped by `zip(kpi_ids, values, textos)` in the POST branch of `mis_kpis`. -/
structure Triple where
  kpiId : Nat
  valor : String
  texto : String
deriving Repr, DecidableEq

/-- The WHERE clause of the existence check in the POST branch of
`mis_kpis`: `empleado_id=%s AND kpi_id=%s AND periodo=%s`. -/
def keyMatch (emp kid per : Nat) (r : ResultRow) : Bool :=
  decide (r.empleadoId = emp) && decide (r.kpiId = kid) && decide (r.periodo = per)

/-- The `SELECT es_criterio FROM kpis WHERE id=%s` lookup of the POST branch:
`es_criterio = row["es_criterio"] if row else False`. -/
def lookupEsCriterio (kpis : List Kpi) (kid : Nat) : Bool :=
  match kpis.find? (fun k => decide (k.id = kid)) with
  | some k => k.esCriterio
  | none => false

/-- The `valor_db` computation of the POST loop of `mis_kpis`
(lines 266-274): a criterio KPI stores no number; otherwise `float(valor)
if valor else None`, with `ValueError` caught to `None` (`pf` models Python
`float`, returning `none` on `ValueError`; the empty string is falsy and
short-circuits to `None`). -/
def valorDb (kpis : List Kpi) (pf : String → Option ℚ) (t : Triple) : Option ℚ :=
  if lookupEsCriterio kpis t.kpiId then none
  else if t.valor = "" then none else pf t.valor

/-- The `texto_db` computation of the POST loop: a criterio KPI stores the
submitted text, a metric KPI stores no text. -/
def textoDb (kpis : List Kpi) (t : Triple) : Option String :=
  if lookupEsCriterio kpis t.kpiId then some t.texto else none

/-- The row created by the INSERT branch of the POST loop (lines 288-292):
a fresh auto-increment id and the computed value/text (`cerrado` and
`cerrado_por` take the schema defaults: open, nobody). -/
def insertedRow (kpis : List Kpi) (pf : String → Option ℚ) (emp per : Nat)
    (st : ResultStore) (t : Triple) : ResultRow :=
  { id := st.nextId, empleadoId := emp, kpiId := t.kpiId, periodo := per,
    valor := valorDb kpis pf t, texto := textoDb kpis t,
    cerrado := false, cerradoPor := none }

/-- One iteration of the POST loop of `mis_kpis` (lines 261-292): decide
criterio vs metric, compute `valor_db` / `texto_db`, then update the
existing row for (empleado, kpi, periodo) or insert a fresh one. -/
def processTriple (kpis : List Kpi) (pf : String → Option ℚ) (emp per : Nat)
    (st : ResultStore) (t : Triple) : ResultStore :=
  match st.rows.find? (keyMatch emp t.kpiId per) with
  | some existing =>
    { st with rows := st.rows.map (fun r =>
        if r.id = existing.id then
          { r with valor := valorDb kpis pf t, texto := textoDb kpis t }
        else r) }
  | none =>
    { nextId := st.nextId + 1,
      rows := st.rows ++ [insertedRow kpis pf emp per st t] }

/-- The whole POST branch of `mis_kpis` for one submission: process each
submitted triple in order against the store. -/
def submitKpiResults (kpis : List Kpi) (pf : String → Option ℚ) (emp per : Nat)
    (st : ResultStore) (ts : List Triple) : ResultStore :=
  ts.foldl (processTriple kpis pf emp per) st

/-- The store state visible after the first `k` statements of a batch have
committed.  `DB_CONFIG` sets `"autocommit": True` (line 104) and the POST
branch opens no transaction, so each per-triple upsert commits on its own:
a connection failure after `k` triples leaves exactly this state durable. -/
def submitFirstK (kpis : List Kpi) (pf : String → Option ℚ) (emp per : Nat)
    (st : ResultStore) (ts : List Triple) (k : Nat) : ResultStore :=
  submitKpiResults kpis pf emp per st (ts.take k)

/-- The `autocommit` entry of `DB_CONFIG` (app.py line 104). -/
def DB_CONFIG_autocommit : Bool := true

/-- Per-row effect of the UPDATE in `cerrar_periodo`:
`SET cerrado=1, cerrado_por=%s WHERE empleado_id=%s AND periodo=%s`. -/
def closeRow (closer : Option Nat) (target per : Nat) (r : ResultRow) : ResultRow :=
  if r.empleadoId = target ∧ r.periodo = per then
    { r with cerrado := true, cerradoPor := closer }
  else r

/-- The `cerrar_periodo` route's single UPDATE over the result table. -/
def cerrarPeriodo (closer : Option Nat) (target per : Nat)
    (rows : List ResultRow) : List ResultRow :=
  rows.map (closeRow closer target per)

/-- A row of the `puestos` table: the columns read by `mis_kpis`,
`organigrama_data` and written by the import (`departamento_id` set at
creation, `jefe_puesto_id` for the hierarchy). -/
structure Puesto where
  id : Nat
  nombre : String
  departamentoId : Option Nat
  jefePuestoId : Option Nat
deriving Repr, DecidableEq

/-- A row of the `empleados` table: the columns read by `organigrama_data`
and the subordinate lookup, plus `id_empleado`, the external identifier
that the bulk import deduplicates on. -/
structure Empleado where
  id : Nat
  idEmpleado : Option String
  nombre : String
  puestoId : Option Nat
deriving Repr, DecidableEq

/-- The `SELECT id FROM puestos WHERE jefe_puesto_id = %s` query of
`mis_kpis` (lines 355-359): the direct subordinate positions. -/
def subordinatePuestos (puestos : List Puesto) (pid : Nat) : List Nat :=
  (puestos.filter (fun p => decide (p.jefePuestoId = some pid))).map (fun p => p.id)

/-- The ids of all supplied positions (the key set of the `nodes` dict in
`organigrama_data`, and the id column of `puestos` for the inner join of the
subordinate employee query). -/
def nodeIds (puestos : List Puesto) : List Nat :=
  puestos.map (fun p => p.id)

/-- The `SELECT ... FROM empleados e JOIN puestos p ON e.puesto_id=p.id
WHERE e.puesto_id IN (...)` query of `mis_kpis` (lines 364-368): employees
whose position is in the given id list (the inner join also requires the
position to exist). -/
def empleadosInPuestos (puestos : List Puesto) (empleados : List Empleado)
    (ids : List Nat) : List Empleado :=
  empleados.filter (fun e =>
    match e.puestoId with
    | some p => ids.contains p && (nodeIds puestos).contains p
    | none => false)

/-- The subordinate section of the GET branch of `mis_kpis` (lines 354-369):
`if subordinate_puestos:` guards the IN-query (Python list truthiness), so
an empty id list issues no membership lookup.  The first component records
the id list of the issued IN-query, `none` when no query was issued; the
second is the resulting subordinate employee list. -/
def subordinateLookup (puestos : List Puesto) (empleados : List Empleado)
    (pid : Nat) : Option (List Nat) × List Empleado :=
  let subs := subordinatePuestos puestos pid
  if subs.isEmpty then (none, [])
  else (some subs, empleadosInPuestos puestos empleados subs)

/-- A child entry of an org-chart node as built by `organigrama_data`:
either an employee leaf (`empleado_<id>` with the display name) or a nested
position node (`puesto_<id>`). -/
inductive OrgChild
  | empNode (empId : Nat) (nombre : String)
  | posNode (puestoId : Nat)
deriving Repr, DecidableEq

/-- Guard of the employee-attachment loop of `organigrama_data` (line 942):
`if puesto_id and puesto_id in nodes` — the position reference must be
truthy (non-null and, as a Python int, nonzero) and a key of the node map. -/
def empAttaches (puestos : List Puesto) (e : Empleado) (pid : Nat) : Bool :=
  match e.puestoId with
  | some v => decide (v ≠ 0) && (nodeIds puestos).contains v && decide (v = pid)
  | none => false

/-- Guard of the position-nesting loop of `organigrama_data` (line 954):
`if jefe and jefe in nodes`. -/
def jefeAttaches (puestos : List Puesto) (p : Puesto) : Bool :=
  match p.jefePuestoId with
  | some j => decide (j ≠ 0) && (nodeIds puestos).contains j
  | none => false

/-- `jefeAttaches` specialised to a given boss id. -/
def posAttaches (puestos : List Puesto) (p : Puesto) (pid : Nat) : Bool :=
  jefeAttaches puestos p && decide (p.jefePuestoId = some pid)

/-- The children list of the node for position `pid` after both loops of
`organigrama_data` have run: the employee loop (lines 940-948) appends every
employee attached to `pid`, in input order, before the position loop
(lines 951-957) appends every position whose truthy boss reference is `pid`,
in input order. -/
def orgChildren (puestos : List Puesto) (empleados : List Empleado)
    (pid : Nat) : List OrgChild :=
  (empleados.filter (fun e => empAttaches puestos e pid)).map
      (fun e => OrgChild.empNode e.id e.nombre)
    ++ (puestos.filter (fun p => posAttaches puestos p pid)).map
      (fun p => OrgChild.posNode p.id)

/-- The top-level roots of the forest built by `organigrama_data`: the
positions whose boss reference is falsy or absent from the node map are
appended to `forest` (lines 951-957), in input order. -/
def forestRoots (puestos : List Puesto) : List Nat :=
  (puestos.filter (fun p => !(jefeAttaches puestos p))).map (fun p => p.id)

/-- Python `str.strip()`: drop leading and trailing whitespace characters
(realised over the character list so that it evaluates by kernel
reduction). -/
def pyStrip (s : String) : String :=
  String.mk (((s.data.dropWhile Char.isWhitespace).reverse.dropWhile
    Char.isWhitespace).reverse)

/-- Python `str.zfill(n)`: left-pad with zeros to width `n`; a leading sign
character stays in front of the padding. -/
def zfill (n : Nat) (s : String) : String :=
  match s.data with
  | [] => String.mk (List.replicate n '0')
  | c :: rest =>
    if c = '+' ∨ c = '-' then
      String.mk (c :: (List.replicate (n - (rest.length + 1)) '0' ++ rest))
    else
      String.mk (List.replicate (n - (c :: rest).length) '0' ++ (c :: rest))

/-- The digit filter of `normalize_emp_id`:
`"".join(ch for ch in s if ch.isdigit())` (decimal digits). -/
def digitsOf (s : String) : String :=
  String.mk (s.data.filter Char.isDigit)

/-- `normalize_emp_id` from the `personal` route (lines 729-737): `None`
maps to the empty string; otherwise strip surrounding whitespace, keep the
digit characters if there are any (else the stripped string itself) and
left-zero-pad to width 5. -/
def normalize_emp_id (value : Option String) : String :=
  match value with
  | none => ""
  | some v =>
    let s := pyStrip v
    let digits := digitsOf s
    let base := if digits = "" then s else digits
    zfill 5 base

/-- A row of the `departamentos` table. -/
structure Departamento where
  id : Nat
  nombre : String
deriving Repr, DecidableEq

/-- A record fetched from the external incidencias `personal` table:
`employee_number, full_name, puesto, department_name`, each possibly NULL. -/
structure RemoteRow where
  employeeNumber : Option String
  fullName : Option String
  puesto : Option String
  departmentName : Option String
deriving Repr, DecidableEq

/-- The KPI database state touched by the import branch of `personal`, with
the auto-increment counters of the three tables. -/
structure ImportState where
  departamentos : List Departamento
  puestos : List Puesto
  empleados : List Empleado
  nextDeptId : Nat
  nextPuestoId : Nat
  nextEmpId : Nat
deriving Repr, DecidableEq

/-- The cleanup `(row.get(...) or "").strip() or None` applied to the
`puesto` and `department_name` fields of a remote row. -/
def optClean (v : Option String) : Option String :=
  let s := pyStrip (v.getD "")
  if s = "" then none else some s

/-- Find-or-create of a department by exact name
(`personal`, lines 805-813). -/
def findOrCreateDept (st : ImportState) (name : Option String) :
    ImportState × Option Nat :=
  match name with
  | none => (st, none)
  | some n =>
    match st.departamentos.find? (fun d => decide (d.nombre = n)) with
    | some d => (st, some d.id)
    | none =>
      ({ st with
          departamentos := st.departamentos ++ [{ id := st.nextDeptId, nombre := n }],
          nextDeptId := st.nextDeptId + 1 },
       some st.nextDeptId)

/-- Find-or-create of a position by exact name, created with the resolved
department and no boss (`personal`, lines 815-827). -/
def findOrCreatePuesto (st : ImportState) (name : Option String)
    (deptId : Option Nat) : ImportState × Option Nat :=
  match name with
  | none => (st, none)
  | some n =>
    match st.puestos.find? (fun p => decide (p.nombre = n)) with
    | some p => (st, some p.id)
    | none =>
      ({ st with
          puestos := st.puestos ++
            [{ id := st.nextPuestoId, nombre := n,
               departamentoId := deptId, jefePuestoId := none }],
          nextPuestoId := st.nextPuestoId + 1 },
       some st.nextPuestoId)

/-- The existing-id set built before the import loop (lines 792-793):
normalized `id_empleado` of every employee whose stored id is truthy. -/
def initialExisting (empleados : List Empleado) : List String :=
  (empleados.filter (fun e =>
      match e.idEmpleado with
      | some s => decide (s ≠ "")
      | none => false)).map
    (fun e => normalize_emp_id e.idEmpleado)

/-- One iteration of the import loop (lines 795-834): normalize the remote
employee number; skip falsy or already-present ids; else resolve or create
department and position, insert the employee with the normalized id and add
it to the existing-id set.  The third accumulator component records the
normalized ids of the rows actually imported, in order. -/
def importStep (acc : ImportState × List String × List String)
    (row : RemoteRow) : ImportState × List String × List String :=
  let st := acc.1
  let existing := acc.2.1
  let imported := acc.2.2
  let empId := normalize_emp_id row.employeeNumber
  if empId = "" ∨ existing.contains empId then acc
  else
    let nombre := pyStrip (row.fullName.getD "")
    let pNombre := optClean row.puesto
    let dNombre := optClean row.departmentName
    let r1 := findOrCreateDept st dNombre
    let r2 := findOrCreatePuesto r1.1 pNombre r1.2
    let st3 := { r2.1 with
      empleados := r2.1.empleados ++
        [{ id := r2.1.nextEmpId, idEmpleado := some empId,
           nombre := nombre, puestoId := r2.2 }],
      nextEmpId := r2.1.nextEmpId + 1 }
    (st3, existing ++ [empId], imported ++ [empId])

/-- The whole import branch of `personal`: seed the existing-id set from the
current employees and fold the remote rows through `importStep`. -/
def importAll (st : ImportState) (rows : List RemoteRow) :
    ImportState × List String × List String :=
  rows.foldl importStep (st, initialExisting st.empleados, [])

/-- A metric KPI with no ranges, used as a concrete batch fixture. -/
def plainKpi (kid : Nat) : Kpi :=
  { id := kid, descripcion := "k", esCriterio := false,
    rojoMin := none, rojoMax := none, amarilloMin := none, amarilloMax := none,
    verdeMin := none, verdeMax := none }

/-- Catalog fixture for the two-triple batch: two metric KPIs. -/
def c1Kpis : List Kpi := [plainKpi 1, plainKpi 2]

/-- Concrete stand-in for Python `float` on the fixture inputs. -/
def c1Pf : String → Option ℚ :=
  fun s => if s = "5" then some 5 else if s = "6" then some 6 else none

/-- A two-triple submission batch for employee 7. -/
def c1Batch : List Triple :=
  [{ kpiId := 1, valor := "5", texto := "" },
   { kpiId := 2, valor := "6", texto := "" }]

/-- An initially empty result store. -/
def c1St : ResultStore := { nextId := 1, rows := [] }

/-- A metric KPI whose green range is [80,100] and yellow range is [60,90]
(overlapping), used to exercise the classifier. -/
def c2Kpi : Kpi :=
  { id := 1, descripcion := "k", esCriterio := false,
    rojoMin := some 0, rojoMax := some 59,
    amarilloMin := some 60, amarilloMax := some 90,
    verdeMin := some 80, verdeMax := some 100 }

/-- A criterio KPI whose green range would contain 5, used to check that
qualitative KPIs are never colorized. -/
def c4Kpi : Kpi :=
  { id := 2, descripcion := "q", esCriterio := true,
    rojoMin := none, rojoMax := none, amarilloMin := none, amarilloMax := none,
    verdeMin := some 0, verdeMax := some 10 }

/-- Position fixtures: 1 is a root, 2 reports to 1, 3 reports to the absent
position 99. -/
def c3Puestos : List Puesto :=
  [{ id := 1, nombre := "dir", departamentoId := none, jefePuestoId := none },
   { id := 2, nombre := "ops", departamentoId := none, jefePuestoId := some 1 },
   { id := 3, nombre := "lab", departamentoId := none, jefePuestoId := some 99 }]

/-- Employee fixtures: 10 occupies position 2; 11 references the absent
position 99. -/
def c3Empleados : List Empleado :=
  [{ id := 10, idEmpleado := some "00010", nombre := "Ana", puestoId := some 2 },
   { id := 11, idEmpleado := some "00011", nombre := "Luz", puestoId := some 99 }]

/-- A result-store fixture with one existing row for employee 7, KPI 1,
period 1 and one row for a different employee. -/
def c8Rows : List ResultRow :=
  [{ id := 1, empleadoId := 7, kpiId := 1, periodo := 1,
     valor := some 5, texto := none, cerrado := false, cerradoPor := none },
   { id := 2, empleadoId := 8, kpiId := 1, periodo := 1,
     valor := some 6, texto := none, cerrado := false, cerradoPor := none }]

/-- An import state with empty tables and fresh counters. -/
def c7St : ImportState :=
  { departamentos := [], puestos := [], empleados := [],
    nextDeptId := 1, nextPuestoId := 1, nextEmpId := 1 }

/-- Remote rows carrying the external ids "123" and "00123", which
normalize to the same key. -/
def c7Rows (n1 n2 : String) : List RemoteRow :=
  [{ employeeNumber := some "123", fullName := some n1,
     puesto := none, departmentName := none },
   { employeeNumber := some "00123", fullName := some n2,
     puesto := none, departmentName := none }]

theorem inRange_eq_specMatches (lo hi : Option ℚ) (w : ℚ) :
    inRange lo hi w = specMatches lo hi w := by
  cases lo <;> cases hi <;> simp [inRange, specMatches]

/-- C2: for a non-qualitative KPI and a present numeric value, the computed
status is the status of the first range, in the fixed order green → yellow
→ red, whose bounds are both present and satisfy `min ≤ v ≤ max`; `none`
when no range matches.  In particular a value in both the green and the
yellow range is classified green, and a range with a single bound present
never matches. -/
theorem C2_classifier_first_match (k : Kpi) (v : ℚ) (hq : k.esCriterio = false) :
    rowColor k (some v) = specFirstMatch k v
    ∧ (specMatches k.verdeMin k.verdeMax v = true →
        rowColor k (some v) = some Color.success)
    ∧ (∀ a : ℚ, specMatches (some a) none v = false
        ∧ specMatches none (some a) v = false) := by
  refine ⟨?_, ?_, ?_⟩
  · cases hg : specMatches k.verdeMin k.verdeMax v <;>
    cases ha : specMatches k.amarilloMin k.amarilloMax v <;>
    cases hr : specMatches k.rojoMin k.rojoMax v <;>
      simp [rowColor, hq, specFirstMatch, rangeStatusList, List.find?,
        inRange_eq_specMatches, hg, ha, hr]
  · intro hg
    simp [rowColor, hq, inRange_eq_specMatches, hg]
  · intro a
    exact ⟨rfl, rfl⟩

/-- Witness for C2: `c2Kpi` is metric; 85 lies in both its green range
[80,100] and its yellow range [60,90] and is classified green. -/
theorem C2_classifier_first_match_witness :
    c2Kpi.esCriterio = false ∧ rowColor c2Kpi (some 85) = some Color.success := by
  refine ⟨rfl, ?_⟩
  exact (C2_classifier_first_match c2Kpi 85 rfl).2.1 (by decide)

/-- C4: a qualitative KPI, or an absent value, is classified `none`
whatever the configured ranges. -/
theorem C4_qualitative_or_null_is_none (k : Kpi) (valor : Option ℚ)
    (h : k.esCriterio = true ∨ valor = none) : rowColor k valor = none := by
  cases valor with
  | none => rfl
  | some v =>
    rcases h with h | h
    · simp [rowColor, h]
    · simp at h

/-- Witness for C4: `c4Kpi` is a criterio KPI whose green range contains 5,
yet the classification of 5 is `none`. -/
theorem C4_qualitative_or_null_is_none_witness :
    (c4Kpi.esCriterio = true ∨ (some (5:ℚ)) = none)
    ∧ rowColor c4Kpi (some 5) = none :=
  ⟨Or.inl rfl, C4_qualitative_or_null_is_none c4Kpi (some 5) (Or.inl rfl)⟩

/-- C1 (code bug): `DB_CONFIG` sets autocommit, so each upsert of a batch
commits individually; after the first triple of the two-triple fixture
batch has committed, the durable store is neither the initial state nor the
fully applied state — a mid-batch failure leaves a partial write, so the
batch is not atomic. -/
theorem C1_midbatch_commit_observable :
    DB_CONFIG_autocommit = true
    ∧ submitFirstK c1Kpis c1Pf 7 1 c1St c1Batch 1
        ≠ submitFirstK c1Kpis c1Pf 7 1 c1St c1Batch 0
    ∧ submitFirstK c1Kpis c1Pf 7 1 c1St c1Batch 1
        ≠ submitFirstK c1Kpis c1Pf 7 1 c1St c1Batch 2 := by
  refine ⟨rfl, ?_, ?_⟩ <;> decide


theorem processTriple_insert (kpis : List Kpi) (pf : String → Option ℚ)
    (emp per : Nat) (st : ResultStore) (t : Triple)
    (h : st.rows.find? (keyMatch emp t.kpiId per) = none) :
    processTriple kpis pf emp per st t =
      { nextId := st.nextId + 1,
        rows := st.rows ++ [insertedRow kpis pf emp per st t] } := by
  simp only [processTriple, h]

theorem processTriple_update (kpis : List Kpi) (pf : String → Option ℚ)
    (emp per : Nat) (st : ResultStore) (t : Triple) (ex : ResultRow)
    (h : st.rows.find? (keyMatch emp t.kpiId per) = some ex) :
    processTriple kpis pf emp per st t =
      { st with rows := st.rows.map (fun r =>
          if r.id = ex.id then
            { r with valor := valorDb kpis pf t, texto := textoDb kpis t }
          else r) } := by
  simp only [processTriple, h]

/-- C5: submitting the same triple twice against a store that has no row
for (employee, kpi, period) and whose ids are below the auto-increment
counter inserts exactly one row on the first call; the second call changes
no row count (an in-place update), and exactly one row with that key
exists afterwards. -/
theorem C5_upsert_idempotent (kpis : List Kpi) (pf : String → Option ℚ)
    (emp per : Nat) (st : ResultStore) (t : Triple)
    (hkey : ∀ r ∈ st.rows, keyMatch emp t.kpiId per r = false)
    (hid : ∀ r ∈ st.rows, r.id < st.nextId) :
    (submitKpiResults kpis pf emp per st [t]).rows.length = st.rows.length + 1
    ∧ (submitKpiResults kpis pf emp per
        (submitKpiResults kpis pf emp per st [t]) [t]).rows.length
        = (submitKpiResults kpis pf emp per st [t]).rows.length
    ∧ (submitKpiResults kpis pf emp per
        (submitKpiResults kpis pf emp per st [t]) [t]).rows.countP
          (keyMatch emp t.kpiId per) = 1 := by
  have hfind : st.rows.find? (keyMatch emp t.kpiId per) = none := by
    rw [List.find?_eq_none]
    intro x hx
    simp [hkey x hx]
  have hone : ∀ s : ResultStore, submitKpiResults kpis pf emp per s [t]
      = processTriple kpis pf emp per s t := fun s => rfl
  have h1 := processTriple_insert kpis pf emp per st t hfind
  rw [hone, h1, hone]
  have hkeyn : keyMatch emp t.kpiId per (insertedRow kpis pf emp per st t) = true := by
    simp [keyMatch, insertedRow]
  have hfind2 : (st.rows ++ [insertedRow kpis pf emp per st t]).find?
      (keyMatch emp t.kpiId per) = some (insertedRow kpis pf emp per st t) := by
    rw [List.find?_append, hfind, Option.none_or]
    exact List.find?_cons_of_pos _ hkeyn
  have h2 := processTriple_update kpis pf emp per
    { nextId := st.nextId + 1, rows := st.rows ++ [insertedRow kpis pf emp per st t] }
    t (insertedRow kpis pf emp per st t) hfind2
  rw [h2]
  have hmap : ∀ r ∈ st.rows,
      (if r.id = (insertedRow kpis pf emp per st t).id then
        { r with valor := valorDb kpis pf t, texto := textoDb kpis t }
      else r) = r := by
    intro r hr
    have hne : r.id ≠ (insertedRow kpis pf emp per st t).id := by
      simp only [insertedRow]
      exact Nat.ne_of_lt (hid r hr)
    simp [hne]
  refine ⟨by simp, by simp, ?_⟩
  simp only [List.map_append]
  rw [List.map_congr_left hmap, List.map_id', List.countP_append]
  have hz : st.rows.countP (keyMatch emp t.kpiId per) = 0 := by
    rw [List.countP_eq_zero]
    intro a ha
    simp [hkey a ha]
  rw [hz]
  simp [keyMatch, insertedRow]

/-- Witness for C5: submitting the fixture triple twice into the empty
store leaves exactly one row for (employee 7, KPI 1, period 1). -/
theorem C5_upsert_idempotent_witness :
    (∀ r ∈ c1St.rows, keyMatch 7 1 1 r = false)
    ∧ (∀ r ∈ c1St.rows, r.id < c1St.nextId)
    ∧ (submitKpiResults c1Kpis c1Pf 7 1
        (submitKpiResults c1Kpis c1Pf 7 1 c1St [{ kpiId := 1, valor := "5", texto := "" }])
        [{ kpiId := 1, valor := "5", texto := "" }]).rows.countP (keyMatch 7 1 1) = 1 := by
  refine ⟨by simp [c1St], by simp [c1St], ?_⟩
  exact (C5_upsert_idempotent c1Kpis c1Pf 7 1 c1St
    { kpiId := 1, valor := "5", texto := "" } (by simp [c1St]) (by simp [c1St])).2.2

/-- C6: a non-qualitative triple whose raw value fails to parse stores a
null numeric value — in the insert as well as in the update branch of the
upsert, under the unique-key invariant of the store — and the batch
continues with the remaining triples; nothing is rejected. -/
theorem C6_parse_failure_stores_null (kpis : List Kpi) (pf : String → Option ℚ)
    (emp per : Nat) (st : ResultStore) (t : Triple) (rest : List Triple)
    (hcrit : lookupEsCriterio kpis t.kpiId = false)
    (hpf : pf t.valor = none)
    (huniq : ∀ r1 ∈ st.rows, ∀ r2 ∈ st.rows, keyMatch emp t.kpiId per r1 = true →
      keyMatch emp t.kpiId per r2 = true → r1.id = r2.id) :
    submitKpiResults kpis pf emp per st (t :: rest)
      = submitKpiResults kpis pf emp per (processTriple kpis pf emp per st t) rest
    ∧ valorDb kpis pf t = none
    ∧ (∀ r ∈ (processTriple kpis pf emp per st t).rows,
        keyMatch emp t.kpiId per r = true → r.valor = none) := by
  have hval : valorDb kpis pf t = none := by
    by_cases hv : t.valor = "" <;> simp [valorDb, hcrit, hv, hpf]
  refine ⟨rfl, hval, ?_⟩
  cases hf : st.rows.find? (keyMatch emp t.kpiId per) with
  | none =>
    rw [processTriple_insert kpis pf emp per st t hf]
    intro r hr hkr
    rcases List.mem_append.mp hr with h | h
    · have := List.find?_eq_none.mp hf r h
      simp [hkr] at this
    · have hre : r = insertedRow kpis pf emp per st t := by simpa using h
      rw [hre]
      simpa [insertedRow] using hval
  | some ex =>
    rw [processTriple_update kpis pf emp per st t ex hf]
    intro r hr hkr
    simp only [List.mem_map] at hr
    obtain ⟨r0, hr0, hfr⟩ := hr
    by_cases hide : r0.id = ex.id
    · rw [← hfr]
      simp [hide, hval]
    · rw [if_neg hide] at hfr
      subst hfr
      exact absurd
        (huniq r0 hr0 ex (List.mem_of_find?_eq_some hf) hkr (List.find?_some hf)) hide

/-- Witness for C6: KPI 1 is metric, "abc" does not parse, the stored value
is null and the rest of the fixture batch is still processed. -/
theorem C6_parse_failure_stores_null_witness :
    lookupEsCriterio c1Kpis 1 = false
    ∧ c1Pf "abc" = none
    ∧ valorDb c1Kpis c1Pf { kpiId := 1, valor := "abc", texto := "" } = none
    ∧ submitKpiResults c1Kpis c1Pf 7 1 c1St
        ({ kpiId := 1, valor := "abc", texto := "" } :: c1Batch)
      = submitKpiResults c1Kpis c1Pf 7 1
          (processTriple c1Kpis c1Pf 7 1 c1St { kpiId := 1, valor := "abc", texto := "" })
          c1Batch := by
  have h := C6_parse_failure_stores_null c1Kpis c1Pf 7 1 c1St
    { kpiId := 1, valor := "abc", texto := "" } c1Batch rfl rfl (by simp [c1St])
  exact ⟨rfl, rfl, h.2.1, h.1⟩

/-- C8: `cerrar_periodo` maps `closeRow` over the whole result table; each
row keeps its id, employee, KPI, period, numeric value and text unchanged;
rows matching the (employee, period) pair are marked closed with the
closer's identity recorded, and all other rows keep their closed state. -/
theorem C8_cerrar_periodo_frame (closer : Option Nat) (target per : Nat)
    (rows : List ResultRow) :
    cerrarPeriodo closer target per rows = rows.map (closeRow closer target per)
    ∧ ∀ r : ResultRow,
        (closeRow closer target per r).id = r.id
      ∧ (closeRow closer target per r).empleadoId = r.empleadoId
      ∧ (closeRow closer target per r).kpiId = r.kpiId
      ∧ (closeRow closer target per r).periodo = r.periodo
      ∧ (closeRow closer target per r).valor = r.valor
      ∧ (closeRow closer target per r).texto = r.texto
      ∧ ((r.empleadoId = target ∧ r.periodo = per) →
          (closeRow closer target per r).cerrado = true
          ∧ (closeRow closer target per r).cerradoPor = closer)
      ∧ (¬(r.empleadoId = target ∧ r.periodo = per) →
          (closeRow closer target per r).cerrado = r.cerrado
          ∧ (closeRow closer target per r).cerradoPor = r.cerradoPor) := by
  refine ⟨rfl, fun r => ?_⟩
  by_cases h : r.empleadoId = target ∧ r.periodo = per <;>
    simp [closeRow, h]

/-- Witness for C8 at the two-row fixture: closing employee 7's period 1 as
closer 9 closes the first row, records the closer, and keeps its value. -/
theorem C8_cerrar_periodo_frame_witness :
    cerrarPeriodo (some 9) 7 1 c8Rows = c8Rows.map (closeRow (some 9) 7 1)
    ∧ (closeRow (some 9) 7 1
        { id := 1, empleadoId := 7, kpiId := 1, periodo := 1,
          valor := some 5, texto := none, cerrado := false, cerradoPor := none }).valor
      = some 5
    ∧ (closeRow (some 9) 7 1
        { id := 1, empleadoId := 7, kpiId := 1, periodo := 1,
          valor := some 5, texto := none, cerrado := false, cerradoPor := none }).cerrado
      = true
    ∧ (closeRow (some 9) 7 1
        { id := 1, empleadoId := 7, kpiId := 1, periodo := 1,
          valor := some 5, texto := none, cerrado := false, cerradoPor := none }).cerradoPor
      = some 9 := by
  have h := C8_cerrar_periodo_frame (some 9) 7 1 c8Rows
  have h2 := h.2 ({ id := 1, empleadoId := 7, kpiId := 1, periodo := 1,
                    valor := some 5, texto := none, cerrado := false,
                    cerradoPor := none } : ResultRow)
  have hcl := h2.2.2.2.2.2.2.1 ⟨rfl, rfl⟩
  exact ⟨h.1, h2.2.2.2.2.1, hcl.1, hcl.2⟩

/-- C9: a position with no subordinate positions yields an empty id list,
no IN-membership query is issued against the employee table, and the
subordinate data is empty. -/
theorem C9_no_subordinates_no_membership_query (puestos : List Puesto)
    (empleados : List Empleado) (pid : Nat)
    (h : ∀ p ∈ puestos, p.jefePuestoId ≠ some pid) :
    subordinatePuestos puestos pid = []
    ∧ (subordinateLookup puestos empleados pid).1 = none
    ∧ (subordinateLookup puestos empleados pid).2 = [] := by
  have hfil : puestos.filter (fun p => decide (p.jefePuestoId = some pid)) = [] := by
    rw [List.filter_eq_nil_iff]
    intro a ha
    simp [h a ha]
  have hsub : subordinatePuestos puestos pid = [] := by
    simp [subordinatePuestos, hfil]
  refine ⟨hsub, ?_, ?_⟩ <;> simp [subordinateLookup, hsub]

/-- Witness for C9: position 3 of the fixture hierarchy has no reports. -/
theorem C9_no_subordinates_no_membership_query_witness :
    (∀ p ∈ c3Puestos, p.jefePuestoId ≠ some 3)
    ∧ subordinatePuestos c3Puestos 3 = []
    ∧ (subordinateLookup c3Puestos c3Empleados 3).1 = none
    ∧ (subordinateLookup c3Puestos c3Empleados 3).2 = [] := by
  have h := C9_no_subordinates_no_membership_query c3Puestos c3Empleados 3 (by decide)
  exact ⟨by decide, h.1, h.2.1, h.2.2⟩

/-- C3: in the tree built by `organigrama_data` (with the realistic proviso
that no position carries id 0, Python's falsy int), a position whose boss
reference is null or names an id absent from the supplied positions becomes
a root, and a position whose boss id is present is appended to that boss's
children; the builder is total, so no input raises an error. -/
theorem C3_absent_boss_becomes_root (puestos : List Puesto)
    (empleados : List Empleado) (h0 : 0 ∉ nodeIds puestos)
    (p : Puesto) (hp : p ∈ puestos) :
    ((p.jefePuestoId = none ∨ ∀ j, p.jefePuestoId = some j → j ∉ nodeIds puestos) →
      p.id ∈ forestRoots puestos)
    ∧ (∀ j, p.jefePuestoId = some j → j ∈ nodeIds puestos →
        OrgChild.posNode p.id ∈ orgChildren puestos empleados j) := by
  constructor
  · intro hroot
    have hatt : jefeAttaches puestos p = false := by
      cases hj : p.jefePuestoId with
      | none => simp [jefeAttaches, hj]
      | some j =>
        rcases hroot with h | h
        · rw [h] at hj
          cases hj
        · have hnm := h j hj
          simp [jefeAttaches, hj, hnm]
    simp only [forestRoots]
    exact List.mem_map.mpr ⟨p, List.mem_filter.mpr ⟨hp, by simp [hatt]⟩, rfl⟩
  · intro j hj hmem
    have hj0 : j ≠ 0 := fun hz => h0 (hz ▸ hmem)
    simp only [orgChildren]
    apply List.mem_append.mpr
    right
    apply List.mem_map.mpr
    refine ⟨p, List.mem_filter.mpr ⟨hp, ?_⟩, rfl⟩
    simp [posAttaches, jefeAttaches, hj, hj0, hmem]

/-- Witness for C3: in the fixture hierarchy, position 3 (boss 99 absent)
is a root and position 2 (boss 1 present) is a child of position 1. -/
theorem C3_absent_boss_becomes_root_witness :
    (0 ∉ nodeIds c3Puestos)
    ∧ 3 ∈ forestRoots c3Puestos
    ∧ OrgChild.posNode 2 ∈ orgChildren c3Puestos c3Empleados 1 := by
  refine ⟨by decide, ?_, ?_⟩
  · exact (C3_absent_boss_becomes_root c3Puestos c3Empleados (by decide)
      { id := 3, nombre := "lab", departamentoId := none, jefePuestoId := some 99 }
      (by decide)).1 (Or.inr (by decide))
  · exact (C3_absent_boss_becomes_root c3Puestos c3Empleados (by decide)
      { id := 2, nombre := "ops", departamentoId := none, jefePuestoId := some 1 }
      (by decide)).2 1 rfl (by decide)

/-- C10: an employee whose occupied-position id does not occur among the
supplied positions is silently omitted: no employee node for them appears
in any children list of the output forest (employee ids assumed unique, as
the primary key guarantees). -/
theorem C10_orphan_employee_omitted (puestos : List Puesto)
    (empleados : List Empleado) (e : Empleado) (he : e ∈ empleados)
    (pE : Nat) (hpe : e.puestoId = some pE) (habs : pE ∉ nodeIds puestos)
    (huniq : ∀ e2 ∈ empleados, e2.id = e.id → e2 = e) :
    ∀ pid nombre, OrgChild.empNode e.id nombre ∉ orgChildren puestos empleados pid := by
  intro pid nombre hmem
  simp only [orgChildren, List.mem_append] at hmem
  rcases hmem with h | h
  · simp only [List.mem_map] at h
    obtain ⟨e2, he2, heq⟩ := h
    obtain ⟨hmem2, hatt2⟩ := List.mem_filter.mp he2
    injection heq with hid hnm
    have he2e : e2 = e := huniq e2 hmem2 hid
    rw [he2e] at hatt2
    rw [empAttaches, hpe] at hatt2
    simp at hatt2
    exact habs hatt2.1.2
  · simp only [List.mem_map] at h
    obtain ⟨p2, _, heq⟩ := h
    cases heq

/-- Witness for C10: employee 11's position 99 is not among the fixture
positions; no node `empleado_11` is attached anywhere, in particular not
under position 2. -/
theorem C10_orphan_employee_omitted_witness :
    ({ id := 11, idEmpleado := some "00011", nombre := "Luz",
       puestoId := some 99 } : Empleado) ∈ c3Empleados
    ∧ (99 ∉ nodeIds c3Puestos)
    ∧ OrgChild.empNode 11 "Luz" ∉ orgChildren c3Puestos c3Empleados 2 := by
  refine ⟨by decide, by decide, ?_⟩
  exact C10_orphan_employee_omitted c3Puestos c3Empleados
    { id := 11, idEmpleado := some "00011", nombre := "Luz", puestoId := some 99 }
    (by decide) 99 rfl (by decide) (by decide) 2 "Luz"

/-- C7: the external ids "123" and "00123" normalize to the same 5-wide key
"00123"; processing remote rows carrying both (into an empty database)
creates only the first row's employee, with the normalized id
and the first row's name, and the second row is skipped as a duplicate. -/
theorem C7_import_normalization_dedup (n1 n2 : String) :
    normalize_emp_id (some "123") = "00123"
    ∧ normalize_emp_id (some "00123") = "00123"
    ∧ (importAll c7St (c7Rows n1 n2)).2.2 = ["00123"]
    ∧ (importAll c7St (c7Rows n1 n2)).1.empleados.map (fun e => e.idEmpleado)
      = [some "00123"]
    ∧ (importAll c7St (c7Rows n1 n2)).1.empleados.map (fun e => e.nombre)
      = [pyStrip n1] := by
  exact ⟨rfl, rfl, rfl, rfl, rfl⟩
